import Mathlib

/-!
Verification of the `mac-to-m3u` IPTV playlist dumper against its
natural-language specification.

The repository has three scripts sharing one architecture:
  * `maclist.py`  — live channels (single `get_all_channels` call, no pagination),
  * `macvod.py`   — movies (paginated `get_ordered_list`, thread-pool fan-out),
  * `macshow.py`  — series (paginated, nested seasons/episodes, asyncio).

This file shallowly embeds the data model and the control flow of the routines
the claims are about: URL construction, header construction, the pagination
loop, the `create_link` stream resolver, the local-proxy URL rewrite, the
playlist-entry writers, and the top-level exception handler of `main`.
Network I/O is abstracted as oracles: a function from a request's position to
the outcome the remote portal would produce.  Python exceptions are modelled
explicitly with `Except`, because which exception classes a `try/except`
clause catches is load-bearing for several claims.
-/

namespace MacToM3u

/-! ## Basic string helpers (Python semantics) -/

/-- Scan `hay` for `needle` as a contiguous substring, mirroring Python's
`needle in hay` on strings. -/
def containsSub (needle hay : List Char) : Bool :=
  match hay with
  | [] => needle.isEmpty
  | _ :: t => needle.isPrefixOf hay || containsSub needle t

/-- Python `str.replace(old, new)`: replace every occurrence, scanning left to
right.  Structural recursion on a fuel that each step strictly consumes; the
wrapper passes the input's length, which always suffices. -/
def pyReplaceAux (old new : List Char) : Nat → List Char → List Char
  | 0, s => s
  | _ + 1, [] => []
  | fuel + 1, c :: t =>
    if old ≠ [] ∧ old.isPrefixOf (c :: t) then
      new ++ pyReplaceAux old new fuel ((c :: t).drop old.length)
    else
      c :: pyReplaceAux old new fuel t

/-- Python `str.replace(old, new)` for a non-empty `old`. -/
def pyReplace (old new s : List Char) : List Char :=
  pyReplaceAux old new s.length s

/-- Python `str.split(sep)` for a one-character separator: splits at every
occurrence, keeping empty fields (`"a  b".split(" ") == ["a","","b"]`). -/
def pySplitChar (sep : Char) (s : List Char) : List (List Char) :=
  match s with
  | [] => [[]]
  | c :: t =>
    let rest := pySplitChar sep t
    if c = sep then [] :: rest
    else match rest with
      | [] => [[c]]
      | r :: rs => (c :: r) :: rs

/-! ## C1 — top-level exception handler of `main`

`macvod.py` lines 311–316 and `macshow.py` lines 340–345 end with

    except KeyboardInterrupt: ... sys.exit(0)
    except Exception as e:    print_colored(...); main()

i.e. on an unexpected exception the handler calls `main()` again. -/

/-- Outcome of one attempt of the body of `main` (everything inside the `try`). -/
inductive RunOutcome where
  | completed      -- the try-block ran to the end
  | interrupted    -- KeyboardInterrupt: handler exits the process
  | unexpectedExc  -- any other Exception: handler falls into the last clause
  deriving DecidableEq, Repr

/-- Number of times `main`'s body is entered, embedded from the tail of
`macvod.py main` (`except Exception as e: print_colored(...); main()`);
`macshow.py main` ends in the same handler (`await main()`).  `oracle i` is
the outcome of the `i`-th attempt; `fuel` bounds the recursion depth so the
embedding stays total (the Python recursion is unbounded). -/
def mainInvocations (oracle : Nat → RunOutcome) : Nat → Nat → Nat
  | 0, _ => 1
  | fuel + 1, i =>
    match oracle i with
    | RunOutcome.unexpectedExc => 1 + mainInvocations oracle fuel (i + 1)
    | _ => 1

/-! ## C2 — pagination loop of the movie / series crawlers

`macvod.py fetch_and_save_vods` lines 269–278 and
`macshow.py fetch_and_save_series` lines 306–315:

    page = 1
    while True:
        data = get_*_list(session, base_url, headers, category_id, page)
        if not data: break
        count = save_*(...); total += count; page += 1

`get_vod_list` / `get_series_list` return `None` on a non-200 status or a
transport error; a 200 body that fails JSON decoding (or lacks the
`js`/`data` keys) raises out of the loop instead.  The save call between two
page fetches matters as well: an exception escaping `save_vod_list` /
`save_series_data` (see C3) also aborts the loop before the next page
request, so the crawl models below (`vodCrawlPages`, `seriesCrawlPages`,
defined after the writers they invoke) include it. -/

/-- Outcome of fetching one catalog page. -/
inductive PageFetch (α : Type) where
  | items (xs : List α)  -- HTTP 200, well-formed body: the `js.data` list
  | failNone             -- non-200 status or transport error: function returns None
  | raiseExc             -- 200 but malformed body: json/key error propagates
  deriving DecidableEq, Repr

/-- A page outcome that makes the `while True` loop stop requesting:
`None` and `[]` are both falsy in `if not data: break`, and a raised
exception aborts the loop as well. -/
def PageFetch.terminal {α : Type} : PageFetch α → Bool
  | PageFetch.items [] => true
  | PageFetch.items (_ :: _) => false
  | PageFetch.failNone => true
  | PageFetch.raiseExc => true

/-- An abstract fueled page loop over a stop predicate; the two faithful
crawl embeddings below are proved equal to it so that the range
characterization is established once. -/
def pagedLoop (stops : Nat → Bool) : Nat → Nat → List Nat
  | 0, _ => []
  | fuel + 1, p => p :: (if stops p then [] else pagedLoop stops fuel (p + 1))

/-! ## URL escaping (`urllib.parse.quote`, default `safe='/'`)

`quote` percent-encodes every UTF-8 byte that is not an ASCII letter, digit,
`_`, `.`, `-`, `~`, or the default-safe `/`, using uppercase hex. -/

/-- Bytes `urllib.parse.quote` leaves unescaped with the default `safe='/'`. -/
def byteSafe (b : Nat) : Bool :=
  (48 ≤ b && b ≤ 57) || (65 ≤ b && b ≤ 90) || (97 ≤ b && b ≤ 122) ||
  b == 45 || b == 46 || b == 95 || b == 126 || b == 47

/-- Uppercase hexadecimal digit, as `quote` emits. -/
def hexDigit (n : Nat) : Char :=
  "0123456789ABCDEF".data.getD n '0'

/-- Percent-encoding of a single byte. -/
def quoteByte (b : Nat) : List Char :=
  if byteSafe b then [Char.ofNat b]
  else ['%', hexDigit (b / 16), hexDigit (b % 16)]

/-- UTF-8 encoding of one code point, as byte values. -/
def utf8Encode (n : Nat) : List Nat :=
  if n < 0x80 then [n]
  else if n < 0x800 then [0xC0 + n / 64, 0x80 + n % 64]
  else if n < 0x10000 then [0xE0 + n / 4096, 0x80 + (n / 64) % 64, 0x80 + n % 64]
  else [0xF0 + n / 262144, 0x80 + (n / 4096) % 64, 0x80 + (n / 64) % 64, 0x80 + n % 64]

/-- The UTF-8 bytes of a string. -/
def utf8Bytes (s : String) : List Nat :=
  (s.data.map Char.toNat).flatMap utf8Encode

/-- Python `urllib.parse.quote(s)` with the default `safe='/'`. -/
def pyQuote (s : String) : String :=
  ⟨((utf8Bytes s).map quoteByte).flatten⟩

/-- Decimal digit expansion, structural on a fuel bounded below by the number
of digits (the wrapper passes the value itself, which always suffices). -/
def natDigitsAux : Nat → Nat → List Char
  | 0, _ => []
  | fuel + 1, n =>
    if n = 0 then [] else natDigitsAux fuel (n / 10) ++ [hexDigit (n % 10)]

/-- Decimal rendering of a natural number, as an f-string interpolates an
`int` (`f"{page}"`). -/
def natDigits (n : Nat) : List Char :=
  natDigitsAux n n

/-- Decimal rendering, with `0` spelled `"0"`. -/
def natDecimal (n : Nat) : String :=
  if n = 0 then "0" else ⟨natDigits n⟩

/-! ## Request construction

Each call site builds its URL with an f-string and passes (or omits) a
`headers` dict; we record both per request. -/

/-- One HTTP GET request as the scripts issue it. -/
structure Request where
  url : String
  headers : List (String × String)
  deriving DecidableEq, Repr

/-- The single auth header every authenticated call passes
(`{"Authorization": f"Bearer {token}"}`). -/
def bearerHeaders (token : String) : List (String × String) :=
  [("Authorization", "Bearer " ++ token)]

/-- Handshake (`get_token`, all three scripts): no headers dict is passed. -/
def handshakeRequest (base : String) : Request :=
  ⟨base ++ "/portal.php?action=handshake&type=stb&token=&JsHttpRequest=1-xml", []⟩

/-- Subscription info (`get_subscription`, all three scripts). -/
def subscriptionRequest (base token : String) : Request :=
  ⟨base ++ "/portal.php?type=account_info&action=get_main_info&JsHttpRequest=1-xml",
   bearerHeaders token⟩

/-- Genre lookup (`maclist.py get_channel_list`, first call). -/
def genresRequest (base token : String) : Request :=
  ⟨base ++ "/server/load.php?type=itv&action=get_genres&JsHttpRequest=1-xml",
   bearerHeaders token⟩

/-- Channel catalog (`maclist.py get_channel_list`, second call). -/
def allChannelsRequest (base token : String) : Request :=
  ⟨base ++ "/portal.php?type=itv&action=get_all_channels&JsHttpRequest=1-xml",
   bearerHeaders token⟩

/-- VOD category listing (`macvod.py get_vod_categories`). -/
def vodCategoriesRequest (base token : String) : Request :=
  ⟨base ++ "/portal.php?type=vod&action=get_categories&JsHttpRequest=1-xml",
   bearerHeaders token⟩

/-- Series category listing (`macshow.py get_series_categories`). -/
def seriesCategoriesRequest (base token : String) : Request :=
  ⟨base ++ "/portal.php?type=series&action=get_categories&JsHttpRequest=1-xml",
   bearerHeaders token⟩

/-- One movie catalog page (`macvod.py get_vod_list`). -/
def vodListRequest (base token catId : String) (page : Nat) : Request :=
  ⟨base ++ "/portal.php?type=vod&action=get_ordered_list&movie_id=0&season_id=0&episode_id=0&row=0&" ++
     "JsHttpRequest=1-xml&category=" ++ catId ++
     "&sortby=added&fav=0&hd=0&not_ended=0&abc=*&genre=*&years=*&search=&p=" ++ natDecimal page,
   bearerHeaders token⟩

/-- One series catalog page (`macshow.py get_series_list`). -/
def seriesListRequest (base token catId : String) (page : Nat) : Request :=
  ⟨base ++ "/portal.php?type=series&action=get_ordered_list&movie_id=0&season_id=0&episode_id=0&row=0&" ++
     "JsHttpRequest=1-xml&category=" ++ catId ++
     "&sortby=added&fav=0&hd=0&not_ended=0&abc=*&genre=*&years=*&search=&p=" ++ natDecimal page,
   bearerHeaders token⟩

/-- Season/episode structure of one series (`macshow.py get_seasons_episodes`). -/
def seasonsRequest (base token seriesId catId : String) : Request :=
  ⟨base ++ "/portal.php?type=series&action=get_ordered_list&movie_id=" ++ pyQuote seriesId ++
     "&season_id=0&episode_id=0&row=0&JsHttpRequest=1-xml&category=" ++ catId ++
     "&sortby=added&fav=0&hd=0&not_ended=0&abc=*&genre=*&years=*&search=&p=1",
   bearerHeaders token⟩

/-- Movie link resolution (`macvod.py fetch_play_link`): note that the
f-string has no `JsHttpRequest` parameter and `session.get` is called with
no `headers` argument. -/
def createLinkVodRequest (base cmd : String) : Request :=
  ⟨base ++ "/portal.php?type=vod&action=create_link&cmd=" ++ pyQuote cmd, []⟩

/-- Episode link resolution (`macshow.py fetch_play_link`): same endpoint
plus the episode number; again no marker and no `headers` argument. -/
def createLinkSeriesRequest (base cmd : String) (episodeNum : Nat) : Request :=
  ⟨base ++ "/portal.php?type=vod&action=create_link&cmd=" ++ pyQuote cmd ++
     "&series=" ++ natDecimal episodeNum, []⟩

/-- The `JsHttpRequest=1-xml` query marker of the portal protocol. -/
def marker : List Char := "JsHttpRequest=1-xml".data

/-! ## C9 — live-channel enumeration (`maclist.py get_channel_list`)

    res_genre = session.get(url_genre, ...)
    if res_genre.status_code == 200:
        id_genre = json.loads(res_genre.text)['js']
        group_info = {...}
        res3 = session.get(url3, ...)          # get_all_channels, once
        if res3.status_code == 200: return json.loads(res3.text)["js"]["data"], group_info
        else: return None, None
    else: return None, None

There is no loop and no page parameter: however many channels the portal
holds arrive in the single `get_all_channels` response. -/

/-- Outcome of one request as `get_channel_list` needs it: transport error
(raises `requests.RequestException`, caught), a status code, and for 200 the
decoded body (or a marker that decoding raises). -/
inductive ChanResp (α : Type) where
  | transportErr
  | status (code : Nat) (body : Option α)  -- `none` body: json/key error raises
  deriving DecidableEq, Repr

/-- The requests `get_channel_list` issues, embedded from the control flow
above: the genre request always; the `get_all_channels` request exactly when
the genre request came back with status 200 and a well-formed body.  The
channel response `chanResp` — in particular how many channels it holds — is
received but never consulted to issue further requests. -/
def getChannelListRequests (base token : String)
    (genreResp : ChanResp (List (Nat × String))) (chanResp : ChanResp (List Nat)) :
    List Request :=
  (genresRequest base token) ::
    (match genreResp with
     | ChanResp.transportErr => []   -- the request raised; except-clause returns
     | ChanResp.status code bodyOpt =>
       if code = 200 then
         match bodyOpt with
         | some _ => [allChannelsRequest base token]
         | none => []  -- json.loads / ['js'] raises before url3 is ever built
       else [])        -- "Failed to fetch group info": return None, None

/-! ## C3 / C7 — the stream resolver (`fetch_play_link`) and the writers

`macvod.py fetch_play_link` (lines 197–222; `macshow.py` 207–232 is the
aiohttp twin):

    res = session.get(url, timeout=timeout, allow_redirects=False)
    if res.status_code == 200:
        data = json.loads(res.text)
        play_token = data['js']['cmd'].split(' ')[1]
        return play_token
    else:
        print_colored(...); return None
    except requests.RequestException as e:
        print_colored(...); return None

Only `requests.RequestException` (resp. `aiohttp.ClientError`) is caught:
`json.JSONDecodeError`, `KeyError` and `IndexError` escape. -/

/-- What `res.text` of a 200 response decodes to, as far as
`fetch_play_link` consumes it. -/
inductive JsonBody where
  | notJson               -- json.loads raises JSONDecodeError
  | noJsCmd               -- valid JSON but data['js']['cmd'] is missing
  | jsCmd (cmd : String)  -- valid JSON carrying the string field js.cmd
  deriving DecidableEq, Repr

/-- Outcome of one `session.get` as the resolver sees it. -/
inductive HttpResult where
  | transportErr                            -- RequestException / ClientError
  | resp (status : Nat) (body : JsonBody)   -- a response with a status code
  deriving DecidableEq, Repr

/-- The Python exceptions the resolver can let escape. -/
inductive PyExc where
  | jsonDecodeError
  | keyError
  | indexError
  | valueError
  deriving DecidableEq, Repr

/-- `fetch_play_link`, embedded from the code above.  `Except.ok none` is a
returned `None`; `Except.error` is an exception escaping the function. -/
def fetch_play_link : HttpResult → Except PyExc (Option String)
  | HttpResult.transportErr => Except.ok none
  | HttpResult.resp status body =>
    if status = 200 then
      match body with
      | JsonBody.notJson => Except.error PyExc.jsonDecodeError
      | JsonBody.noJsCmd => Except.error PyExc.keyError
      | JsonBody.jsCmd cmd =>
        match pySplitChar ' ' cmd.data with
        | _ :: t :: _ => Except.ok (some ⟨t⟩)
        | _ => Except.error PyExc.indexError
    else Except.ok none

/-- Does a resolver outcome abort the caller (an escaping exception)? -/
def raisesExc : Except PyExc (Option String) → Bool
  | Except.error _ => true
  | Except.ok _ => false

/-- The truthy link of a resolver outcome: the returned URL when it is
non-empty (`if play_link:`), otherwise `none`. -/
def resolvedLink : Except PyExc (Option String) → Option String
  | Except.ok (some l) => if l = "" then none else some l
  | _ => none

/-- The two-line `#EXTINF` record both scripts write for a movie or channel
(`f'#EXTINF:-1 tvg-logo="{logo}" group-title="{category_title}",{name}\n{url}\n'`). -/
def mkExtinfEntry (logo group name url : String) : String :=
  "#EXTINF:-1 tvg-logo=\"" ++ logo ++ "\" group-title=\"" ++ group ++ "\"," ++
    name ++ "\n" ++ url ++ "\n"

/-- One movie item as `save_vod_list` reads it. -/
structure VodItem where
  name : String
  screenshot : String   -- vod.get('screenshot_uri', '')
  cmd : String
  deriving DecidableEq, Repr

/-- `macvod.py save_vod_list` (lines 224–248), embedded: iterate the page's
items, resolve each via `fetch_play_link`, and on a truthy (non-empty) link
write the record and bump the counter.  `resolve v` is the portal's response
to `v`'s `create_link` request.  The first component collects what reached
`file.write` (these writes survive even when a later exception aborts the
loop); the second is the returned count, or the escaping exception. -/
def save_vod_list (resolve : VodItem → HttpResult) (categoryTitle : String) :
    List VodItem → List String × Except PyExc Nat
  | [] => ([], Except.ok 0)
  | v :: rest =>
    match fetch_play_link (resolve v) with
    | Except.error e => ([], Except.error e)
    | Except.ok none => save_vod_list resolve categoryTitle rest
    | Except.ok (some link) =>
      if link = "" then
        -- empty string is falsy: `if play_link:` skips it
        save_vod_list resolve categoryTitle rest
      else
        (mkExtinfEntry v.screenshot categoryTitle v.name link ::
           (save_vod_list resolve categoryTitle rest).1,
         (save_vod_list resolve categoryTitle rest).2.map (· + 1))

/-! ### The series writer (`macshow.py save_series_data`, lines 247–289) -/

/-- One series list item as `save_series_data` reads it. -/
structure SeriesItem where
  name : String
  id : String          -- series['id']; the code takes id.split(':')[0]
  categoryId : String
  screenshot : String  -- series.get('screenshot_uri', '')
  deriving DecidableEq, Repr

/-- One season record from `get_seasons_episodes`. -/
structure SeasonData where
  id : String          -- season['id']; the code takes id.split(':')[1]
  episodes : List Nat  -- season['series']
  deriving DecidableEq, Repr

/-- Digits-to-number accumulator for `int(str)`. -/
def digitsToNat (s : List Char) : Nat :=
  s.foldl (fun a c => a * 10 + (c.toNat - 48)) 0

/-- Python `int(s)` restricted to the shapes the portal sends (a run of
digits); anything else raises `ValueError`. -/
def pyIntParse (s : List Char) : Except PyExc Nat :=
  if s ≠ [] ∧ s.all Char.isDigit then Except.ok (digitsToNat s)
  else Except.error PyExc.valueError

/-- Python `lst[i]` for `i = 1`: `IndexError` when there is no second element. -/
def pyIndex1 {α : Type} : List α → Except PyExc α
  | _ :: x :: _ => Except.ok x
  | _ => Except.error PyExc.indexError

/-- Python `lst[0]`. -/
def pyIndex0 {α : Type} : List α → Except PyExc α
  | x :: _ => Except.ok x
  | _ => Except.error PyExc.indexError

/-- `format_episode_number`: `f"S{season_num} E{episode_num:0{width}d}"`
where `width = len(str(total_episodes))`. -/
def format_episode_number (seasonNum episodeNum totalEpisodes : Nat) : String :=
  let w := (natDecimal totalEpisodes).length
  let e := natDecimal episodeNum
  "S" ++ natDecimal seasonNum ++ " E" ++ ⟨List.replicate (w - e.length) '0'⟩ ++ e

/-- The multi-attribute `#EXTINF` record `save_series_data` writes for one
episode. -/
def mkEpisodeEntry (seriesId seasonNumStr : String) (episodeNum : Nat)
    (seriesTitle logo categoryTitle episodeTitle url : String) : String :=
  "#EXTINF:-1 tvg-type=\"serie\" tvg-serie=\"" ++ seriesId ++
    "\" tvg-season=\"" ++ seasonNumStr ++
    "\" tvg-episode=\"" ++ natDecimal episodeNum ++
    "\" serie-title=\"" ++ seriesTitle ++
    "\" tvg-logo=\"" ++ logo ++
    "\" group-title=\"" ++ categoryTitle ++ "\"," ++ episodeTitle ++
    "\n" ++ url ++ "\n"

/-- Sequence two writer stages: writes accumulate; an exception in the first
stage skips the second (it propagates), an exception in the second keeps the
first stage's writes. -/
def seqWrites (a : List String × Except PyExc Nat)
    (b : Unit → List String × Except PyExc Nat) : List String × Except PyExc Nat :=
  match a.2 with
  | Except.error e => (a.1, Except.error e)
  | Except.ok n => (a.1 ++ (b ()).1, (b ()).2.map (n + ·))

/-- The episode loop of `save_series_data`: for every episode number of one
season, build the command, resolve it, and write on a truthy link.
`resolveEp sid snum ep` is the portal's response to the `create_link` request
for that episode (the command is `base64(json({series_id, season_num,
type:"series"}))`, determined by `sid` and `snum`, and the request also
carries `ep`). -/
def save_episode_loop (resolveEp : String → Nat → Nat → HttpResult)
    (seriesId : String) (seasonNumStr : String) (seasonNum : Nat)
    (seriesTitle logo categoryTitle : String) (totalEpisodes : Nat) :
    List Nat → List String × Except PyExc Nat
  | [] => ([], Except.ok 0)
  | ep :: rest =>
    match fetch_play_link (resolveEp seriesId seasonNum ep) with
    | Except.error e => ([], Except.error e)
    | Except.ok none =>
      save_episode_loop resolveEp seriesId seasonNumStr seasonNum seriesTitle
        logo categoryTitle totalEpisodes rest
    | Except.ok (some link) =>
      if link = "" then
        save_episode_loop resolveEp seriesId seasonNumStr seasonNum seriesTitle
          logo categoryTitle totalEpisodes rest
      else
        (mkEpisodeEntry seriesId seasonNumStr ep seriesTitle logo categoryTitle
           (seriesTitle ++ " " ++ format_episode_number seasonNum ep totalEpisodes)
           link ::
           (save_episode_loop resolveEp seriesId seasonNumStr seasonNum seriesTitle
             logo categoryTitle totalEpisodes rest).1,
         (save_episode_loop resolveEp seriesId seasonNumStr seasonNum seriesTitle
           logo categoryTitle totalEpisodes rest).2.map (· + 1))

/-- The season loop of `save_series_data`: extract the season number from
`season['id'].split(':')[1]` (both the split and `int(...)` can raise), then
run the episode loop. -/
def save_season_loop (resolveEp : String → Nat → Nat → HttpResult)
    (seriesId seriesTitle logo categoryTitle : String) :
    List SeasonData → List String × Except PyExc Nat
  | [] => ([], Except.ok 0)
  | season :: rest =>
    match pyIndex1 (pySplitChar ':' season.id.data) with
    | Except.error e => ([], Except.error e)
    | Except.ok snumChars =>
      match pyIntParse snumChars with
      | Except.error e => ([], Except.error e)
      | Except.ok snum =>
        seqWrites
          (save_episode_loop resolveEp seriesId ⟨snumChars⟩ snum seriesTitle
            logo categoryTitle season.episodes.length season.episodes)
          (fun _ => save_season_loop resolveEp seriesId seriesTitle logo
            categoryTitle rest)

/-- `macshow.py save_series_data`: per series, take
`series['id'].split(':')[0]`, fetch the season structure
(`Except.ok none` = `get_seasons_episodes` returned `None`; `Except.error` =
it raised), and when it is truthy run the season loop. -/
def save_series_data
    (seasonsOf : String → Except PyExc (Option (List SeasonData)))
    (resolveEp : String → Nat → Nat → HttpResult) (categoryTitle : String) :
    List SeriesItem → List String × Except PyExc Nat
  | [] => ([], Except.ok 0)
  | series :: rest =>
    match pyIndex0 (pySplitChar ':' series.id.data) with
    | Except.error e => ([], Except.error e)
    | Except.ok sidChars =>
      match seasonsOf ⟨sidChars⟩ with
      | Except.error e => ([], Except.error e)
      | Except.ok none =>
        -- falsy: `if seasons_data:` skips the series
        save_series_data seasonsOf resolveEp categoryTitle rest
      | Except.ok (some []) =>
        -- an empty list is falsy too
        save_series_data seasonsOf resolveEp categoryTitle rest
      | Except.ok (some (s :: ss)) =>
        seqWrites
          (save_season_loop resolveEp ⟨sidChars⟩ series.name series.screenshot
            categoryTitle (s :: ss))
          (fun _ => save_series_data seasonsOf resolveEp categoryTitle rest)

/-! ### The pagination loops with their save step (C2)

`macvod.py fetch_and_save_vods` (lines 269–278):

    page = 1
    while True:
        vod_data = get_vod_list(session, base_url, headers, category_id, page)
        if not vod_data: break
        count = save_vod_list(file, vod_data, session, base_url, category_title)
        total_count += count
        page += 1

and the identical shape in `macshow.py fetch_and_save_series` (lines
306–315) with `save_series_data`.  Both the page fetch and the save call can
end the loop: a falsy fetch (`None` or `[]`) breaks; a raised exception —
from a malformed page body, or escaping the save/resolve step (see C3) —
propagates out of the `while True` before the next page request. -/

/-- Does the movie loop stop after requesting page `p`?  True when the fetch
outcome is terminal (falsy or raising), or when the page is non-empty but
`save_vod_list` raises on its items. -/
def vodPageStops (oracle : Nat → PageFetch VodItem) (resolve : VodItem → HttpResult)
    (title : String) (p : Nat) : Bool :=
  match oracle p with
  | PageFetch.items (x :: xs) =>
    match (save_vod_list resolve title (x :: xs)).2 with
    | Except.error _ => true
    | Except.ok _ => false
  | _ => true

/-- The page numbers `fetch_and_save_vods` requests for one category,
embedded from the loop above including the save call between fetches.
`oracle p` is the portal's response to the request for page `p`; `fuel`
bounds the loop so the embedding stays total. -/
def vodCrawlPages (oracle : Nat → PageFetch VodItem) (resolve : VodItem → HttpResult)
    (title : String) : Nat → Nat → List Nat
  | 0, _ => []
  | fuel + 1, p =>
    p :: (match oracle p with
          | PageFetch.items (x :: xs) =>
            (match (save_vod_list resolve title (x :: xs)).2 with
             | Except.error _ => []   -- exception propagates out of the while-loop
             | Except.ok _ => vodCrawlPages oracle resolve title fuel (p + 1))
          | _ => [])

/-- Does the series loop stop after requesting page `p`?  Same shape with
`save_series_data`. -/
def seriesPageStops (oracle : Nat → PageFetch SeriesItem)
    (seasonsOf : String → Except PyExc (Option (List SeasonData)))
    (resolveEp : String → Nat → Nat → HttpResult) (title : String) (p : Nat) : Bool :=
  match oracle p with
  | PageFetch.items (x :: xs) =>
    match (save_series_data seasonsOf resolveEp title (x :: xs)).2 with
    | Except.error _ => true
    | Except.ok _ => false
  | _ => true

/-- The page numbers `fetch_and_save_series` requests for one category,
embedded from the loop above including the save call between fetches. -/
def seriesCrawlPages (oracle : Nat → PageFetch SeriesItem)
    (seasonsOf : String → Except PyExc (Option (List SeasonData)))
    (resolveEp : String → Nat → Nat → HttpResult)
    (title : String) : Nat → Nat → List Nat
  | 0, _ => []
  | fuel + 1, p =>
    p :: (match oracle p with
          | PageFetch.items (x :: xs) =>
            (match (save_series_data seasonsOf resolveEp title (x :: xs)).2 with
             | Except.error _ => []   -- exception propagates out of the while-loop
             | Except.ok _ => seriesCrawlPages oracle seasonsOf resolveEp title fuel (p + 1))
          | _ => [])

/-! ## C5 / C6 — the local-proxy URL rewrite (`maclist.py save_channel_list`)

    cmd_url = channel['cmds'][0]['url'].replace('ffmpeg ', '')
    if "localhost" in cmd_url:
        ch_id_match = re.search(r'/ch/(\d+)_', cmd_url)
        if ch_id_match:
            ch_id = ch_id_match.group(1)
            cmd_url = f"{base_url}/play/live.php?mac={mac}&stream={ch_id}&extension=ts"
-/

/-- Match attempt of `(\d+)_` directly after an occurrence of `/ch/`: the
regex engine takes the maximal digit run and then requires `_`.  Backtracking
to a shorter run can never help, because the character after a shorter run is
a digit and hence not `_`; so the maximal run is the only candidate. -/
def chMatchAt (rest : List Char) : Option (List Char) :=
  let ds := rest.takeWhile Char.isDigit
  if ds ≠ [] ∧ (rest.drop ds.length).head? = some '_' then some ds else none

/-- Scan for `/ch/` followed by a digit run followed by `_`, moving one
position right on failure; structural on a fuel that every step consumes. -/
def chSearchAux : Nat → List Char → Option (List Char)
  | 0, _ => none
  | fuel + 1, [] => none
  | fuel + 1, c :: rest =>
    if c = '/' ∧ "ch/".data.isPrefixOf rest then
      -- the pattern `/ch/` matches here; try `(\d+)_` on what follows it
      match chMatchAt (rest.drop 3) with
      | some ds => some ds
      | none => chSearchAux fuel rest
    else chSearchAux fuel rest

/-- `re.search(r'/ch/(\d+)_', s)`, returning group 1: scan left to right for
`/ch/` followed by a digit run followed by `_`. -/
def chSearch (l : List Char) : Option (List Char) :=
  chSearchAux l.length l

/-- `channel['cmds'][0]['url'].replace('ffmpeg ', '')`. -/
def stripFfmpeg (u : String) : String :=
  ⟨pyReplace "ffmpeg ".data [] u.data⟩

/-- The rewritten portal-relative stream URL. -/
def liveStreamUrl (base mac chId : String) : String :=
  base ++ "/play/live.php?mac=" ++ mac ++ "&stream=" ++ chId ++ "&extension=ts"

/-- The `if "localhost" in cmd_url:` rewrite step (lines 191–195). -/
def rewriteCmdUrl (base mac : String) (u : String) : String :=
  if containsSub "localhost".data u.data then
    match chSearch u.data with
    | some chId => liveStreamUrl base mac ⟨chId⟩
    | none => u
  else u

/-- Full command-URL resolution for a channel: strip the `ffmpeg ` token,
then apply the local-proxy rewrite. -/
def resolveChannelCmd (base mac raw : String) : String :=
  rewriteCmdUrl base mac (stripFfmpeg raw)

/-- One channel as `save_channel_list` reads it. -/
structure Channel where
  tvGenreId : String
  name : String
  logo : String         -- channel.get('logo', '')
  cmds : List String    -- the url fields of channel['cmds']
  deriving DecidableEq, Repr

/-- `group_info.get(group_id, "General")`. -/
def dictGetD (m : List (String × String)) (k d : String) : String :=
  match m.find? (fun p => p.1 = k) with
  | some p => p.2
  | none => d

/-- The record `save_channel_list` writes for one channel (`none` when
`channel['cmds'][0]` raises `IndexError`, which would abort the dump). -/
def channelEntry (base mac : String) (groupInfo : List (String × String))
    (ch : Channel) : Option String :=
  match ch.cmds with
  | [] => none
  | rawUrl :: _ =>
    some (mkExtinfEntry ch.logo (dictGetD groupInfo ch.tvGenreId "General")
      ch.name (resolveChannelCmd base mac rawUrl))

/-! ## C10 — base-URL derivation (`get_base_url`, all three scripts)

    parsed_url = urlparse(base_url)
    host = parsed_url.hostname           # maclist; macvod/macshow: `or ""`
    port = parsed_url.port
    if port is None: port = 80           # macvod/macshow: `port or 80`
    return f"http://{host}:{port}"

`urlparse` is the standard library; the fragment of it these scripts rely on
(scheme/netloc/hostname/port extraction) is embedded below. -/

/-- No occurrence of the character `x` immediately followed by `y`: the
workhorse for proving that a marker string cannot occur in a built URL. -/
def noAdj (x y : Char) (l : List Char) : Prop :=
  List.Chain' (fun a b => ¬(a = x ∧ b = y)) l

/-- Executable mirror of `noAdj`, for evaluation on concrete strings. -/
def noAdjB (x y : Char) : List Char → Bool
  | a :: b :: t => (!(a == x && b == y)) && noAdjB x y (b :: t)
  | _ => true

end MacToM3u

namespace MacToM3u

/-! ## Theorems -/

/-! ### Substring and adjacency lemmas -/

theorem data_append (s t : String) : (s ++ t).data = s.data ++ t.data := by
  cases s; cases t; rfl

theorem containsSub_nil_needle (l : List Char) : containsSub [] l = true := by
  induction l with
  | nil => rfl
  | cons c t ih => simp [containsSub, ih]

theorem containsSub_iff (n l : List Char) :
    containsSub n l = true ↔ List.IsInfix n l := by
  induction l with
  | nil =>
    simp only [containsSub, List.isEmpty_iff, List.infix_nil]
  | cons c t ih =>
    simp only [containsSub, Bool.or_eq_true, List.isPrefixOf_iff_prefix, ih,
      List.infix_cons_iff]

theorem containsSub_append_right (n l₁ l₂ : List Char)
    (h : containsSub n l₂ = true) : containsSub n (l₁ ++ l₂) = true := by
  rw [containsSub_iff] at h ⊢
  rcases h with ⟨s, t, hst⟩
  exact ⟨l₁ ++ s, t, by rw [← hst]; simp⟩

theorem containsSub_append_left (n l₁ l₂ : List Char)
    (h : containsSub n l₁ = true) : containsSub n (l₁ ++ l₂) = true := by
  rw [containsSub_iff] at h ⊢
  rcases h with ⟨s, t, hst⟩
  exact ⟨s, t ++ l₂, by rw [← hst]; simp⟩

theorem noAdj_of_all_fst {x y : Char} {l : List Char}
    (h : ∀ c ∈ l, c ≠ x) : noAdj x y l := by
  induction l with
  | nil => exact List.chain'_nil
  | cons c t ih =>
    rw [noAdj, List.chain'_cons']
    refine ⟨?_, ih fun d hd => h d (List.mem_cons_of_mem c hd)⟩
    intro b _ hab
    exact h c (List.mem_cons_self c t) hab.1

theorem noAdj_of_all_snd {x y : Char} {l : List Char}
    (h : ∀ c ∈ l, c ≠ y) : noAdj x y l := by
  induction l with
  | nil => exact List.chain'_nil
  | cons c t ih =>
    rw [noAdj, List.chain'_cons']
    refine ⟨?_, ih fun d hd => h d (List.mem_cons_of_mem c hd)⟩
    intro b hb hab
    exact h b (List.mem_cons_of_mem c (List.mem_of_mem_head? hb)) hab.2

theorem noAdj_append {x y : Char} {l₁ l₂ : List Char}
    (h₁ : noAdj x y l₁) (h₂ : noAdj x y l₂)
    (hj : ∀ a ∈ l₁.getLast?, ∀ b ∈ l₂.head?, ¬(a = x ∧ b = y)) :
    noAdj x y (l₁ ++ l₂) :=
  List.chain'_append.mpr ⟨h₁, h₂, hj⟩

theorem noAdj_append_headSafe {x y : Char} {l₁ l₂ : List Char}
    (h₁ : noAdj x y l₁) (h₂ : noAdj x y l₂)
    (hh : ∀ b ∈ l₂.head?, b ≠ y) :
    noAdj x y (l₁ ++ l₂) :=
  noAdj_append h₁ h₂ (fun _ _ b hb hab => hh b hb hab.2)

theorem noAdj_append_lastSafe {x y : Char} {l₁ l₂ : List Char}
    (h₁ : noAdj x y l₁) (h₂ : noAdj x y l₂)
    (hh : ∀ a ∈ l₁.getLast?, a ≠ x) :
    noAdj x y (l₁ ++ l₂) :=
  noAdj_append h₁ h₂ (fun a ha _ _ hab => hh a ha hab.1)

theorem not_pair_infix_of_noAdj {x y : Char} {l : List Char}
    (h : noAdj x y l) : ¬ List.IsInfix [x, y] l := by
  rintro ⟨s, t, hst⟩
  rw [noAdj, ← hst, List.append_assoc] at h
  have h2 := h.right_of_append
  rw [show ([x, y] ++ t : List Char) = x :: y :: t from rfl] at h2
  exact (List.chain'_cons.mp h2).1 ⟨rfl, rfl⟩

theorem containsSub_false_of_noAdj {x y : Char} {n l : List Char}
    (hpair : List.IsInfix [x, y] n) (h : noAdj x y l) :
    containsSub n l = false := by
  by_contra hc
  rw [Bool.not_eq_false, containsSub_iff] at hc
  exact not_pair_infix_of_noAdj h (hpair.trans hc)

theorem containsSub_mono (n mid l : List Char) (h : containsSub n mid = true)
    (hml : List.IsInfix mid l) : containsSub n l = true := by
  rw [containsSub_iff] at h ⊢
  exact h.trans hml

theorem noAdjB_eq_true (x y : Char) : ∀ l : List Char, noAdjB x y l = true ↔ noAdj x y l
  | [] => by simp [noAdjB, noAdj]
  | [a] => by simp [noAdjB, noAdj]
  | a :: b :: t => by
    rw [noAdjB, noAdj, List.chain'_cons, Bool.and_eq_true, Bool.not_eq_true',
      Bool.and_eq_false_iff]
    constructor
    · rintro ⟨h1, h2⟩
      refine ⟨?_, (noAdjB_eq_true x y (b :: t)).mp h2⟩
      rintro ⟨rfl, rfl⟩
      rcases h1 with h | h <;> simp at h
    · rintro ⟨h1, h2⟩
      refine ⟨?_, (noAdjB_eq_true x y (b :: t)).mpr h2⟩
      by_cases hax : a = x
      · right; subst hax
        rw [beq_eq_false_iff_ne]
        intro hby; exact h1 ⟨rfl, hby⟩
      · left; rw [beq_eq_false_iff_ne]; exact hax

theorem noAdj_of_B {x y : Char} {l : List Char} (h : noAdjB x y l = true) :
    noAdj x y l :=
  (noAdjB_eq_true x y l).mp h

/-! ### What percent-encoding and decimal rendering can emit -/

theorem toNat_ofNat_valid {n : Nat} (h : n.isValidChar) : (Char.ofNat n).toNat = n := by
  rw [Char.ofNat, dif_pos h]
  rfl

theorem hexDigit_ne_eq (k : Nat) : hexDigit k ≠ '=' := by
  rw [hexDigit]
  rcases Nat.lt_or_ge k 16 with h | h
  · interval_cases k <;> decide
  · rw [List.getD_eq_default]
    · decide
    · simpa using h

theorem quoteByte_ne_eq (b : Nat) : ∀ c ∈ quoteByte b, c ≠ '=' := by
  intro c hc he
  subst he
  rw [quoteByte] at hc
  split at hc
  · rename_i hsafe
    rw [List.mem_singleton] at hc
    rw [byteSafe] at hsafe
    simp only [Bool.or_eq_true, Bool.and_eq_true, decide_eq_true_eq, beq_iff_eq] at hsafe
    have hb : b ≠ 61 := by omega
    have hvalid : b.isValidChar := Or.inl (by omega)
    have h2 := toNat_ofNat_valid hvalid
    rw [← hc] at h2
    exact hb (by simpa using h2.symm)
  · simp only [List.mem_cons, List.not_mem_nil, or_false] at hc
    rcases hc with hc | hc | hc
    · exact absurd hc (by decide)
    · exact hexDigit_ne_eq _ hc.symm
    · exact hexDigit_ne_eq _ hc.symm

theorem pyQuote_ne_eq (s : String) : ∀ c ∈ (pyQuote s).data, c ≠ '=' := by
  intro c hc
  have hc' : c ∈ ((utf8Bytes s).map quoteByte).flatten := hc
  rw [List.mem_flatten] at hc'
  rcases hc' with ⟨m, hm, hcm⟩
  rw [List.mem_map] at hm
  rcases hm with ⟨b, _, hb⟩
  exact quoteByte_ne_eq b c (hb ▸ hcm)

theorem natDigitsAux_isDigit :
    ∀ fuel n : Nat, ∀ c ∈ natDigitsAux fuel n, c.isDigit = true := by
  intro fuel
  induction fuel with
  | zero => intro n c hc; simp [natDigitsAux] at hc
  | succ m ih =>
    intro n c hc
    rw [natDigitsAux] at hc
    split at hc
    · simp at hc
    · rcases List.mem_append.mp hc with h | h
      · exact ih _ _ h
      · have hm : n % 10 < 10 := Nat.mod_lt _ (by omega)
        rw [List.mem_singleton] at h
        subst h
        set k := n % 10 with hk
        interval_cases k <;> rfl

theorem natDigits_isDigit (n : Nat) : ∀ c ∈ natDigits n, c.isDigit = true :=
  natDigitsAux_isDigit n n

theorem natDecimal_isDigit (n : Nat) : ∀ c ∈ (natDecimal n).data, c.isDigit = true := by
  rw [natDecimal]
  split
  · intro c hc
    rw [show ("0" : String).data = ['0'] from rfl, List.mem_singleton] at hc
    subst hc; rfl
  · exact natDigits_isDigit n

theorem natDecimal_ne_of_not_digit {y : Char} (hy : y.isDigit = false) (n : Nat) :
    ∀ c ∈ (natDecimal n).data, c ≠ y := by
  intro c hc he
  subst he
  rw [natDecimal_isDigit n c hc] at hy
  exact Bool.noConfusion hy

/-! ### C4 — markers and auth headers on the wire -/

/-- The adjacent pair `t=` inside the marker `JsHttpRequest=1-xml`. -/
theorem marker_pair : List.IsInfix ['t', '='] marker :=
  ⟨"JsHttpReques".data, "1-xml".data, rfl⟩

/-- A create_link URL of `macvod.py` never contains a `t=` adjacency outside
`base`: the literal query text has none, and percent-encoding never emits
`=`. -/
theorem noAdj_createLinkVod (base cmd : String) (hbase : noAdj 't' '=' base.data) :
    noAdj 't' '=' (createLinkVodRequest base cmd).url.data := by
  show noAdj 't' '=' ((base ++ "/portal.php?type=vod&action=create_link&cmd=" ++ pyQuote cmd)).data
  rw [data_append, data_append]
  refine noAdj_append_headSafe (noAdj_append_headSafe hbase (noAdj_of_B rfl) (by decide)) ?_ ?_
  · exact noAdj_of_all_snd (pyQuote_ne_eq cmd)
  · intro b hb
    exact pyQuote_ne_eq cmd b (List.mem_of_mem_head? hb)

/-- Same for the episode create_link URL of `macshow.py`, whose tail adds
`&series={episode_num}`. -/
theorem noAdj_createLinkSeries (base cmd : String) (ep : Nat)
    (hbase : noAdj 't' '=' base.data) :
    noAdj 't' '=' (createLinkSeriesRequest base cmd ep).url.data := by
  show noAdj 't' '='
    ((base ++ "/portal.php?type=vod&action=create_link&cmd=" ++ pyQuote cmd ++
      "&series=" ++ natDecimal ep)).data
  rw [data_append, data_append, data_append, data_append]
  have h1 : noAdj 't' '='
      ((base.data ++ "/portal.php?type=vod&action=create_link&cmd=".data) ++
        (pyQuote cmd).data) := by
    refine noAdj_append_headSafe (noAdj_append_headSafe hbase (noAdj_of_B rfl) (by decide)) ?_ ?_
    · exact noAdj_of_all_snd (pyQuote_ne_eq cmd)
    · intro b hb
      exact pyQuote_ne_eq cmd b (List.mem_of_mem_head? hb)
  refine noAdj_append_headSafe (noAdj_append_headSafe h1 (noAdj_of_B rfl) (by decide)) ?_ ?_
  · exact noAdj_of_all_snd (natDecimal_ne_of_not_digit (by rfl) ep)
  · intro b hb
    exact natDecimal_ne_of_not_digit (by rfl) ep b (List.mem_of_mem_head? hb)

/-- C4: the claim says every request carries the `JsHttpRequest=1-xml` query
marker and every post-handshake request carries the bearer header.  It fails
exactly on the stream resolver: this concrete `create_link` request carries
neither the marker nor any header (`macvod.py fetch_play_link` builds its URL
without the marker and calls `session.get` without a `headers` argument). -/
theorem C4_create_link_counterexample :
    containsSub marker (createLinkVodRequest "http://h:80" "abc").url.data = false ∧
    (createLinkVodRequest "http://h:80" "abc").headers = [] := by
  exact ⟨rfl, rfl⟩

/-- C4 (amended): every request **except create_link** carries the
`JsHttpRequest=1-xml` marker; the handshake carries no auth header and every
other non-create_link request carries `Authorization: Bearer {token}`; the
create_link requests (movie and episode) carry no headers at all and their
URLs lack the marker (for any base without a `t=` adjacency — true of every
`http://host:port` base — since percent-encoding never emits `=`). -/
theorem C4_marker_and_auth (base token catId seriesId cmd : String)
    (page ep : Nat) (hbase : noAdj 't' '=' base.data) :
    (containsSub marker (handshakeRequest base).url.data = true ∧
      (handshakeRequest base).headers = []) ∧
    (containsSub marker (subscriptionRequest base token).url.data = true ∧
      (subscriptionRequest base token).headers = bearerHeaders token) ∧
    (containsSub marker (genresRequest base token).url.data = true ∧
      (genresRequest base token).headers = bearerHeaders token) ∧
    (containsSub marker (allChannelsRequest base token).url.data = true ∧
      (allChannelsRequest base token).headers = bearerHeaders token) ∧
    (containsSub marker (vodCategoriesRequest base token).url.data = true ∧
      (vodCategoriesRequest base token).headers = bearerHeaders token) ∧
    (containsSub marker (seriesCategoriesRequest base token).url.data = true ∧
      (seriesCategoriesRequest base token).headers = bearerHeaders token) ∧
    (containsSub marker (vodListRequest base token catId page).url.data = true ∧
      (vodListRequest base token catId page).headers = bearerHeaders token) ∧
    (containsSub marker (seriesListRequest base token catId page).url.data = true ∧
      (seriesListRequest base token catId page).headers = bearerHeaders token) ∧
    (containsSub marker (seasonsRequest base token seriesId catId).url.data = true ∧
      (seasonsRequest base token seriesId catId).headers = bearerHeaders token) ∧
    (containsSub marker (createLinkVodRequest base cmd).url.data = false ∧
      (createLinkVodRequest base cmd).headers = []) ∧
    (containsSub marker (createLinkSeriesRequest base cmd ep).url.data = false ∧
      (createLinkSeriesRequest base cmd ep).headers = []) := by
  refine ⟨⟨?_, rfl⟩, ⟨?_, rfl⟩, ⟨?_, rfl⟩, ⟨?_, rfl⟩, ⟨?_, rfl⟩, ⟨?_, rfl⟩,
    ⟨?_, rfl⟩, ⟨?_, rfl⟩, ⟨?_, rfl⟩, ⟨?_, rfl⟩, ⟨?_, rfl⟩⟩
  · exact containsSub_mono marker
      "/portal.php?action=handshake&type=stb&token=&JsHttpRequest=1-xml".data _
      (by rfl) ⟨base.data, [], by simp [handshakeRequest, data_append]⟩
  · exact containsSub_mono marker
      "/portal.php?type=account_info&action=get_main_info&JsHttpRequest=1-xml".data _
      (by rfl) ⟨base.data, [], by simp [subscriptionRequest, data_append]⟩
  · exact containsSub_mono marker
      "/server/load.php?type=itv&action=get_genres&JsHttpRequest=1-xml".data _
      (by rfl) ⟨base.data, [], by simp [genresRequest, data_append]⟩
  · exact containsSub_mono marker
      "/portal.php?type=itv&action=get_all_channels&JsHttpRequest=1-xml".data _
      (by rfl) ⟨base.data, [], by simp [allChannelsRequest, data_append]⟩
  · exact containsSub_mono marker
      "/portal.php?type=vod&action=get_categories&JsHttpRequest=1-xml".data _
      (by rfl) ⟨base.data, [], by simp [vodCategoriesRequest, data_append]⟩
  · exact containsSub_mono marker
      "/portal.php?type=series&action=get_categories&JsHttpRequest=1-xml".data _
      (by rfl) ⟨base.data, [], by simp [seriesCategoriesRequest, data_append]⟩
  · exact containsSub_mono marker "JsHttpRequest=1-xml&category=".data _
      (by rfl)
      ⟨base.data ++ "/portal.php?type=vod&action=get_ordered_list&movie_id=0&season_id=0&episode_id=0&row=0&".data,
       catId.data ++ "&sortby=added&fav=0&hd=0&not_ended=0&abc=*&genre=*&years=*&search=&p=".data ++
         (natDecimal page).data,
       by simp [vodListRequest, data_append]⟩
  · exact containsSub_mono marker "JsHttpRequest=1-xml&category=".data _
      (by rfl)
      ⟨base.data ++ "/portal.php?type=series&action=get_ordered_list&movie_id=0&season_id=0&episode_id=0&row=0&".data,
       catId.data ++ "&sortby=added&fav=0&hd=0&not_ended=0&abc=*&genre=*&years=*&search=&p=".data ++
         (natDecimal page).data,
       by simp [seriesListRequest, data_append]⟩
  · exact containsSub_mono marker "&season_id=0&episode_id=0&row=0&JsHttpRequest=1-xml&category=".data _
      (by rfl)
      ⟨base.data ++ "/portal.php?type=series&action=get_ordered_list&movie_id=".data ++
         (pyQuote seriesId).data,
       catId.data ++ "&sortby=added&fav=0&hd=0&not_ended=0&abc=*&genre=*&years=*&search=&p=1".data,
       by simp [seasonsRequest, data_append]⟩
  · exact containsSub_false_of_noAdj marker_pair (noAdj_createLinkVod base cmd hbase)
  · exact containsSub_false_of_noAdj marker_pair (noAdj_createLinkSeries base cmd ep hbase)

/-- Witness for C4 (amended) at a concrete base, token, category, command,
page and episode. -/
theorem C4_marker_and_auth_witness :
    (containsSub marker (handshakeRequest "http://h:80").url.data = true ∧
      (handshakeRequest "http://h:80").headers = []) ∧
    (containsSub marker (subscriptionRequest "http://h:80" "TOK").url.data = true ∧
      (subscriptionRequest "http://h:80" "TOK").headers = bearerHeaders "TOK") ∧
    (containsSub marker (genresRequest "http://h:80" "TOK").url.data = true ∧
      (genresRequest "http://h:80" "TOK").headers = bearerHeaders "TOK") ∧
    (containsSub marker (allChannelsRequest "http://h:80" "TOK").url.data = true ∧
      (allChannelsRequest "http://h:80" "TOK").headers = bearerHeaders "TOK") ∧
    (containsSub marker (vodCategoriesRequest "http://h:80" "TOK").url.data = true ∧
      (vodCategoriesRequest "http://h:80" "TOK").headers = bearerHeaders "TOK") ∧
    (containsSub marker (seriesCategoriesRequest "http://h:80" "TOK").url.data = true ∧
      (seriesCategoriesRequest "http://h:80" "TOK").headers = bearerHeaders "TOK") ∧
    (containsSub marker (vodListRequest "http://h:80" "TOK" "1" 2).url.data = true ∧
      (vodListRequest "http://h:80" "TOK" "1" 2).headers = bearerHeaders "TOK") ∧
    (containsSub marker (seriesListRequest "http://h:80" "TOK" "1" 2).url.data = true ∧
      (seriesListRequest "http://h:80" "TOK" "1" 2).headers = bearerHeaders "TOK") ∧
    (containsSub marker (seasonsRequest "http://h:80" "TOK" "5" "1").url.data = true ∧
      (seasonsRequest "http://h:80" "TOK" "5" "1").headers = bearerHeaders "TOK") ∧
    (containsSub marker (createLinkVodRequest "http://h:80" "abc").url.data = false ∧
      (createLinkVodRequest "http://h:80" "abc").headers = []) ∧
    (containsSub marker (createLinkSeriesRequest "http://h:80" "abc" 3).url.data = false ∧
      (createLinkSeriesRequest "http://h:80" "abc" 3).headers = []) := by
  exact C4_marker_and_auth "http://h:80" "TOK" "1" "5" "abc" 2 3 (noAdj_of_B rfl)

/-- C1: the claim says a run is never re-invoked wholesale from within its own
top-level exception handler.  The code contradicts it: the `except Exception`
clause that ends `main` in `macvod.py` (lines 314–316) and `macshow.py`
(lines 343–345) calls `main()` again, so a run whose first attempt raises an
unexpected exception enters `main` a second time (and, with more fuel,
arbitrarily often).  This theorem evaluates the embedded handler at that
failing input. -/
theorem C1_self_retry_on_unexpected_exception :
    mainInvocations (fun _ => RunOutcome.unexpectedExc) 1 0 = 2 ∧
    ∀ fuel : Nat, mainInvocations (fun _ => RunOutcome.unexpectedExc) fuel 0 = fuel + 1 := by
  constructor
  · rfl
  · intro fuel
    have h : ∀ n i, mainInvocations (fun _ => RunOutcome.unexpectedExc) n i = n + 1 := by
      intro n
      induction n with
      | zero => intro i; rfl
      | succ m ih => intro i; simp only [mainInvocations]; rw [ih (i + 1)]; omega
    exact h fuel 0

/-- Helper: the abstract page loop requests exactly pages `p, p+1, …, q`
when `q` is the first page (from `p`) where the stop predicate holds and
fuel suffices. -/
theorem pagedLoop_spec (stops : Nat → Bool)
    (p q fuel : Nat) (hq : p ≤ q)
    (hbefore : ∀ r, p ≤ r → r < q → stops r = false)
    (hq' : stops q = true)
    (hfuel : q + 1 ≤ fuel + p) :
    pagedLoop stops fuel p = List.range' p (q + 1 - p) := by
  induction fuel generalizing p with
  | zero => omega
  | succ n ih =>
    rw [pagedLoop]
    rcases Nat.eq_or_lt_of_le hq with h | h
    · subst h
      rw [hq']
      simp [List.range'_succ, Nat.add_sub_cancel_left]
    · rw [hbefore p (le_refl p) h]
      have hrec := ih (p + 1) (by omega)
        (fun r hr1 hr2 => hbefore r (by omega) hr2) (by omega)
      simp only [Bool.false_eq_true, if_false]
      rw [hrec]
      have h1 : q + 1 - p = (q + 1 - (p + 1)) + 1 := by omega
      rw [h1, List.range'_succ]

/-- The movie crawl with its save step is the abstract loop over
`vodPageStops`. -/
theorem vodCrawlPages_eq (oracle : Nat → PageFetch VodItem)
    (resolve : VodItem → HttpResult) (title : String) :
    ∀ fuel p, vodCrawlPages oracle resolve title fuel p =
      pagedLoop (vodPageStops oracle resolve title) fuel p := by
  intro fuel
  induction fuel with
  | zero => intro p; rfl
  | succ n ih =>
    intro p
    rw [vodCrawlPages, pagedLoop]
    cases ho : oracle p with
    | items xs =>
      cases xs with
      | nil => simp [vodPageStops, ho]
      | cons x t =>
        cases hsv : (save_vod_list resolve title (x :: t)).2 with
        | error e => simp [vodPageStops, ho, hsv]
        | ok m => simp [vodPageStops, ho, hsv, ih]
    | failNone => simp [vodPageStops, ho]
    | raiseExc => simp [vodPageStops, ho]

/-- The series crawl with its save step is the abstract loop over
`seriesPageStops`. -/
theorem seriesCrawlPages_eq (oracle : Nat → PageFetch SeriesItem)
    (seasonsOf : String → Except PyExc (Option (List SeasonData)))
    (resolveEp : String → Nat → Nat → HttpResult) (title : String) :
    ∀ fuel p, seriesCrawlPages oracle seasonsOf resolveEp title fuel p =
      pagedLoop (seriesPageStops oracle seasonsOf resolveEp title) fuel p := by
  intro fuel
  induction fuel with
  | zero => intro p; rfl
  | succ n ih =>
    intro p
    rw [seriesCrawlPages, pagedLoop]
    cases ho : oracle p with
    | items xs =>
      cases xs with
      | nil => simp [seriesPageStops, ho]
      | cons x t =>
        cases hsv : (save_series_data seasonsOf resolveEp title (x :: t)).2 with
        | error e => simp [seriesPageStops, ho, hsv]
        | ok m => simp [seriesPageStops, ho, hsv, ih]
    | failNone => simp [seriesPageStops, ho]
    | raiseExc => simp [seriesPageStops, ho]

/-- A terminal page fetch always stops the movie loop (whatever the save
step would have done). -/
theorem vodPageStops_of_terminal (oracle : Nat → PageFetch VodItem)
    (resolve : VodItem → HttpResult) (title : String) (p : Nat)
    (h : (oracle p).terminal = true) :
    vodPageStops oracle resolve title p = true := by
  rw [vodPageStops]
  cases ho : oracle p with
  | items xs =>
    cases xs with
    | nil => rfl
    | cons x t =>
      rw [ho] at h
      simp [PageFetch.terminal] at h
  | failNone => rfl
  | raiseExc => rfl

/-- A terminal page fetch always stops the series loop. -/
theorem seriesPageStops_of_terminal (oracle : Nat → PageFetch SeriesItem)
    (seasonsOf : String → Except PyExc (Option (List SeasonData)))
    (resolveEp : String → Nat → Nat → HttpResult) (title : String) (p : Nat)
    (h : (oracle p).terminal = true) :
    seriesPageStops oracle seasonsOf resolveEp title p = true := by
  rw [seriesPageStops]
  cases ho : oracle p with
  | items xs =>
    cases xs with
    | nil => rfl
    | cons x t =>
      rw [ho] at h
      simp [PageFetch.terminal] at h
  | failNone => rfl
  | raiseExc => rfl

/-- C2: the claim says a terminal page fetch is the **sole** termination
condition of the paginator.  The code refutes it: with a portal whose every
page is non-empty (so no fetch is ever terminal) but whose single item gets
a 200 `create_link` response with `js.cmd = "nolink"`, `save_vod_list`
raises the C3 `IndexError` out of the `while True` loop after page 1, so
page 2 — which precedes any terminal page — is never requested. -/
theorem C2_save_abort_counterexample :
    vodCrawlPages (fun _ => PageFetch.items [{ name := "A", screenshot := "", cmd := "c1" }])
        (fun _ => HttpResult.resp 200 (JsonBody.jsCmd "nolink")) "Movies" 5 1 = [1] ∧
    PageFetch.terminal
      ((fun _ => PageFetch.items [{ name := "A", screenshot := "", cmd := "c1" }] :
          Nat → PageFetch VodItem) 1) = false ∧
    2 ∉ vodCrawlPages (fun _ => PageFetch.items [{ name := "A", screenshot := "", cmd := "c1" }])
        (fun _ => HttpResult.resp 200 (JsonBody.jsCmd "nolink")) "Movies" 5 1 := by
  refine ⟨rfl, rfl, ?_⟩
  intro hmem
  rw [show vodCrawlPages
        (fun _ => PageFetch.items [{ name := "A", screenshot := "", cmd := "c1" }])
        (fun _ => HttpResult.resp 200 (JsonBody.jsCmd "nolink")) "Movies" 5 1 = [1]
      from rfl] at hmem
  simp at hmem

/-- C2 (amended): pages are requested sequentially from page 1 and the crawl
runs up to exactly the first page at which the loop stops; a page whose
fetch is terminal (zero-length item list, `None` from a non-200 status or
transport error, or malformed JSON raising) always stops it, the page after
the stopping page is never requested — but a terminal fetch is not the sole
stopping condition: an exception escaping the save step of a non-empty page
(see C3) stops the crawl the same way, in the movie and series loops alike. -/
theorem C2_pagination_termination_amended
    (oracle : Nat → PageFetch VodItem) (resolve : VodItem → HttpResult) (title : String)
    (oracleS : Nat → PageFetch SeriesItem)
    (seasonsOf : String → Except PyExc (Option (List SeasonData)))
    (resolveEp : String → Nat → Nat → HttpResult) (titleS : String)
    (q fuel qS fuelS : Nat) (hq : 1 ≤ q)
    (hbefore : ∀ r, 1 ≤ r → r < q → vodPageStops oracle resolve title r = false)
    (hq' : vodPageStops oracle resolve title q = true)
    (hfuel : q ≤ fuel)
    (hqS : 1 ≤ qS)
    (hbeforeS : ∀ r, 1 ≤ r → r < qS → seriesPageStops oracleS seasonsOf resolveEp titleS r = false)
    (hq'S : seriesPageStops oracleS seasonsOf resolveEp titleS qS = true)
    (hfuelS : qS ≤ fuelS) :
    (vodCrawlPages oracle resolve title fuel 1 = List.range' 1 q ∧
      (q + 1) ∉ vodCrawlPages oracle resolve title fuel 1 ∧
      (∀ r, 1 ≤ r → r ≤ q → r ∈ vodCrawlPages oracle resolve title fuel 1)) ∧
    (seriesCrawlPages oracleS seasonsOf resolveEp titleS fuelS 1 = List.range' 1 qS ∧
      (qS + 1) ∉ seriesCrawlPages oracleS seasonsOf resolveEp titleS fuelS 1 ∧
      (∀ r, 1 ≤ r → r ≤ qS → r ∈ seriesCrawlPages oracleS seasonsOf resolveEp titleS fuelS 1)) ∧
    (∀ pg, (oracle pg).terminal = true → vodPageStops oracle resolve title pg = true) ∧
    (∀ pg, (oracleS pg).terminal = true →
      seriesPageStops oracleS seasonsOf resolveEp titleS pg = true) := by
  have hv := pagedLoop_spec (vodPageStops oracle resolve title) 1 q fuel hq hbefore hq'
    (by omega)
  have hs := pagedLoop_spec (seriesPageStops oracleS seasonsOf resolveEp titleS) 1 qS fuelS
    hqS hbeforeS hq'S (by omega)
  have hq1 : q + 1 - 1 = q := by omega
  have hqS1 : qS + 1 - 1 = qS := by omega
  rw [hq1] at hv
  rw [hqS1] at hs
  have hv' : vodCrawlPages oracle resolve title fuel 1 = List.range' 1 q := by
    rw [vodCrawlPages_eq, hv]
  have hs' : seriesCrawlPages oracleS seasonsOf resolveEp titleS fuelS 1 =
      List.range' 1 qS := by
    rw [seriesCrawlPages_eq, hs]
  refine ⟨⟨hv', ?_, ?_⟩, ⟨hs', ?_, ?_⟩, ?_, ?_⟩
  · rw [hv']
    intro hmem
    rw [List.mem_range'_1] at hmem
    omega
  · intro r h1 h2
    rw [hv', List.mem_range'_1]
    exact ⟨h1, by omega⟩
  · rw [hs']
    intro hmem
    rw [List.mem_range'_1] at hmem
    omega
  · intro r h1 h2
    rw [hs', List.mem_range'_1]
    exact ⟨h1, by omega⟩
  · exact fun pg h => vodPageStops_of_terminal oracle resolve title pg h
  · exact fun pg h => seriesPageStops_of_terminal oracleS seasonsOf resolveEp titleS pg h

/-- Witness for C2 (amended): a movie portal whose pages 1 and 2 hold one
resolvable item each and whose page 3 is empty makes the crawler request
exactly pages `[1, 2, 3]`; a series portal whose page 1 is already empty
stops at page 1. -/
theorem C2_pagination_termination_amended_witness :
    (vodCrawlPages
        (fun r => if r < 3 then PageFetch.items [{ name := "A", screenshot := "", cmd := "c1" }]
                  else PageFetch.items [])
        (fun _ => HttpResult.resp 200 (JsonBody.jsCmd "x L1")) "Movies" 5 1 =
      List.range' 1 3 ∧
      4 ∉ vodCrawlPages
        (fun r => if r < 3 then PageFetch.items [{ name := "A", screenshot := "", cmd := "c1" }]
                  else PageFetch.items [])
        (fun _ => HttpResult.resp 200 (JsonBody.jsCmd "x L1")) "Movies" 5 1 ∧
      (∀ r, 1 ≤ r → r ≤ 3 → r ∈ vodCrawlPages
        (fun r => if r < 3 then PageFetch.items [{ name := "A", screenshot := "", cmd := "c1" }]
                  else PageFetch.items [])
        (fun _ => HttpResult.resp 200 (JsonBody.jsCmd "x L1")) "Movies" 5 1)) ∧
    (seriesCrawlPages (fun _ => PageFetch.items []) (fun _ => Except.ok none)
        (fun _ _ _ => HttpResult.transportErr) "Series" 1 1 = List.range' 1 1 ∧
      2 ∉ seriesCrawlPages (fun _ => PageFetch.items []) (fun _ => Except.ok none)
        (fun _ _ _ => HttpResult.transportErr) "Series" 1 1 ∧
      (∀ r, 1 ≤ r → r ≤ 1 → r ∈ seriesCrawlPages (fun _ => PageFetch.items [])
        (fun _ => Except.ok none) (fun _ _ _ => HttpResult.transportErr) "Series" 1 1)) ∧
    (∀ pg, (((fun r => if r < 3 then
          PageFetch.items [{ name := "A", screenshot := "", cmd := "c1" }]
        else PageFetch.items []) : Nat → PageFetch VodItem) pg).terminal = true →
      vodPageStops
        (fun r => if r < 3 then PageFetch.items [{ name := "A", screenshot := "", cmd := "c1" }]
                  else PageFetch.items [])
        (fun _ => HttpResult.resp 200 (JsonBody.jsCmd "x L1")) "Movies" pg = true) ∧
    (∀ pg, (((fun _ => PageFetch.items []) : Nat → PageFetch SeriesItem) pg).terminal = true →
      seriesPageStops (fun _ => PageFetch.items []) (fun _ => Except.ok none)
        (fun _ _ _ => HttpResult.transportErr) "Series" pg = true) := by
  exact C2_pagination_termination_amended
    (fun r => if r < 3 then PageFetch.items [{ name := "A", screenshot := "", cmd := "c1" }]
              else PageFetch.items [])
    (fun _ => HttpResult.resp 200 (JsonBody.jsCmd "x L1")) "Movies"
    (fun _ => PageFetch.items []) (fun _ => Except.ok none)
    (fun _ _ _ => HttpResult.transportErr) "Series"
    3 5 1 1 (by omega)
    (by intro r h1 h2
        interval_cases r <;> rfl)
    (by rfl)
    (by omega)
    (by omega)
    (by intro r h1 h2
        omega)
    (by rfl)
    (by omega)

/-! ### C9 — the channel crawler issues a single catalog request -/

/-- C9: live-channel enumeration issues the genre request and then at most a
single `get_all_channels` request — exactly one in the successful case — and
what the channel response holds (in particular how many channels the portal
returns) never causes another request: the channel crawler has no page loop. -/
theorem C9_single_catalog_request (base token : String)
    (gr : ChanResp (List (Nat × String))) (cr cr' : ChanResp (List Nat)) :
    getChannelListRequests base token gr cr = getChannelListRequests base token gr cr' ∧
    (getChannelListRequests base token gr cr = [genresRequest base token] ∨
      getChannelListRequests base token gr cr =
        [genresRequest base token, allChannelsRequest base token]) ∧
    (∀ g, gr = ChanResp.status 200 (some g) →
      getChannelListRequests base token gr cr =
        [genresRequest base token, allChannelsRequest base token]) := by
  cases gr with
  | transportErr =>
    refine ⟨rfl, Or.inl rfl, ?_⟩
    intro g hg
    exact absurd hg (by simp)
  | status code body =>
    by_cases h200 : code = 200
    · subst h200
      cases body with
      | none =>
        refine ⟨rfl, Or.inl (by simp [getChannelListRequests]), ?_⟩
        intro g hg
        simp at hg
      | some g0 =>
        refine ⟨rfl, Or.inr (by simp [getChannelListRequests]), ?_⟩
        intro g _
        simp [getChannelListRequests]
    · refine ⟨rfl, Or.inl (by simp [getChannelListRequests, h200]), ?_⟩
      intro g hg
      rw [ChanResp.status.injEq] at hg
      exact absurd hg.1 h200

/-- Witness for C9: a successful genre fetch issues exactly the two requests,
whether the channel fetch then succeeds with three channels or fails. -/
theorem C9_single_catalog_request_witness :
    (getChannelListRequests "http://h:80" "TOK"
        (ChanResp.status 200 (some [(1, "News")])) (ChanResp.status 200 (some [1, 2, 3])) =
      [genresRequest "http://h:80" "TOK", allChannelsRequest "http://h:80" "TOK"]) ∧
    (getChannelListRequests "http://h:80" "TOK"
        (ChanResp.status 200 (some [(1, "News")])) ChanResp.transportErr =
      [genresRequest "http://h:80" "TOK", allChannelsRequest "http://h:80" "TOK"]) := by
  refine ⟨?_, ?_⟩
  · exact (C9_single_catalog_request "http://h:80" "TOK"
      (ChanResp.status 200 (some [(1, "News")])) (ChanResp.status 200 (some [1, 2, 3]))
      ChanResp.transportErr).2.2 [(1, "News")] rfl
  · exact (C9_single_catalog_request "http://h:80" "TOK"
      (ChanResp.status 200 (some [(1, "News")])) ChanResp.transportErr
      ChanResp.transportErr).2.2 [(1, "News")] rfl


/-! ### C3 — what a resolver failure does to the batch -/

/-- C3: the claim says any malformed response — including a 200 response
whose `js.cmd` has fewer than two space-delimited tokens — makes the resolver
return `None` so the batch continues.  The code refutes it: only
`requests.RequestException` is caught, so on a 200 response with
`js.cmd = "nolink"` the `split(' ')[1]` raises `IndexError` and
`save_vod_list` aborts — the second, perfectly resolvable item of the batch
is never examined, nothing is written, and no count is returned. -/
theorem C3_malformed_response_counterexample :
    fetch_play_link (HttpResult.resp 200 (JsonBody.jsCmd "nolink")) =
      Except.error PyExc.indexError ∧
    save_vod_list
        (fun v => if v.name = "A" then HttpResult.resp 200 (JsonBody.jsCmd "nolink")
                  else HttpResult.resp 200 (JsonBody.jsCmd "ffmpeg http://x/y"))
        "Movies"
        [{ name := "A", screenshot := "", cmd := "c1" },
         { name := "B", screenshot := "", cmd := "c2" }] =
      ([], Except.error PyExc.indexError) := by
  exact ⟨rfl, rfl⟩

/-- C3 (amended): a transport error or a non-200 status makes the resolver
return `None`, and a `None` (or empty) link only skips that item — the batch
continues with the rest, in the movie writer and the episode writer alike.
A 200 response with a malformed body instead raises an uncaught exception
that aborts the remainder of the batch (see the counterexample). -/
theorem C3_resolver_failure_skips (st : Nat) (hst : st ≠ 200) (b : JsonBody)
    (resolve : VodItem → HttpResult) (title : String) :
    fetch_play_link HttpResult.transportErr = Except.ok none ∧
    fetch_play_link (HttpResult.resp st b) = Except.ok none ∧
    (∀ v rest, fetch_play_link (resolve v) = Except.ok none →
      save_vod_list resolve title (v :: rest) = save_vod_list resolve title rest) ∧
    (∀ resolveEp sid snumStr snum stitle logo total ep rest,
      fetch_play_link (resolveEp sid snum ep) = Except.ok none →
      save_episode_loop resolveEp sid snumStr snum stitle logo title total (ep :: rest) =
        save_episode_loop resolveEp sid snumStr snum stitle logo title total rest) := by
  refine ⟨rfl, ?_, ?_, ?_⟩
  · rw [fetch_play_link.eq_def]
    simp [hst]
  · intro v rest h
    rw [save_vod_list, h]
  · intro resolveEp sid snumStr snum stitle logo total ep rest h
    rw [save_episode_loop, h]

/-- Witness for C3 (amended) at status 404, a batch of one unresolvable item,
and one unresolvable episode. -/
theorem C3_resolver_failure_skips_witness :
    fetch_play_link HttpResult.transportErr = Except.ok none ∧
    fetch_play_link (HttpResult.resp 404 JsonBody.notJson) = Except.ok none ∧
    (∀ v rest, fetch_play_link ((fun _ => HttpResult.transportErr) v) = Except.ok none →
      save_vod_list (fun _ => HttpResult.transportErr) "Movies" (v :: rest) =
        save_vod_list (fun _ => HttpResult.transportErr) "Movies" rest) ∧
    (∀ resolveEp sid snumStr snum stitle logo total ep rest,
      fetch_play_link (resolveEp sid snum ep) = Except.ok none →
      save_episode_loop resolveEp sid snumStr snum stitle logo "Movies" total (ep :: rest) =
        save_episode_loop resolveEp sid snumStr snum stitle logo "Movies" total rest) := by
  exact C3_resolver_failure_skips 404 (by decide) JsonBody.notJson
    (fun _ => HttpResult.transportErr) "Movies"


/-! ### C5 — the local-proxy rewrite and end-to-end scenario A -/

theorem string_data_inj {s t : String} (h : s.data = t.data) : s = t := by
  cases s; cases t; exact congrArg String.mk h

theorem str_append_assoc (a b c : String) : (a ++ b) ++ c = a ++ (b ++ c) := by
  apply string_data_inj
  simp [data_append]

/-- C5: a channel command URL that (after stripping `ffmpeg `) contains
`localhost` and matches `/ch/(\d+)_` is rewritten to exactly
`{base}/play/live.php?mac={mac}&stream={id}&extension=ts`; and scenario A:
the channel `{name:"Ch1", cmds:[{url:"ffmpeg http://localhost/ch/42_x"}]}` in
genre `1 ↦ "News"` produces the record with that URL and group-title
`"News"`. -/
theorem C5_localhost_rewrite (base mac raw : String) (chId : List Char)
    (h1 : containsSub "localhost".data (stripFfmpeg raw).data = true)
    (h2 : chSearch (stripFfmpeg raw).data = some chId) :
    resolveChannelCmd base mac raw =
      base ++ "/play/live.php?mac=" ++ mac ++ "&stream=" ++ (⟨chId⟩ : String) ++
        "&extension=ts" ∧
    channelEntry base mac [("1", "News")]
        { tvGenreId := "1", name := "Ch1", logo := "",
          cmds := ["ffmpeg http://localhost/ch/42_x"] } =
      some ("#EXTINF:-1 tvg-logo=\"\" group-title=\"News\",Ch1\n" ++
        (base ++ "/play/live.php?mac=" ++ mac ++ "&stream=42&extension=ts") ++ "\n") := by
  constructor
  · rw [resolveChannelCmd, rewriteCmdUrl, if_pos h1, h2]
    rfl
  · have h : channelEntry base mac [("1", "News")]
        { tvGenreId := "1", name := "Ch1", logo := "",
          cmds := ["ffmpeg http://localhost/ch/42_x"] } =
        some (mkExtinfEntry "" "News" "Ch1" (liveStreamUrl base mac "42")) := rfl
    rw [h]
    congr 1
    apply string_data_inj
    simp only [mkExtinfEntry, liveStreamUrl, data_append, List.append_assoc]
    rfl

/-- Witness for C5 at a concrete base, MAC and the scenario A command URL. -/
theorem C5_localhost_rewrite_witness :
    resolveChannelCmd "http://h:80" "AA:BB" "ffmpeg http://localhost/ch/42_x" =
      "http://h:80" ++ "/play/live.php?mac=" ++ "AA:BB" ++ "&stream=" ++
        (⟨['4', '2']⟩ : String) ++ "&extension=ts" ∧
    channelEntry "http://h:80" "AA:BB" [("1", "News")]
        { tvGenreId := "1", name := "Ch1", logo := "",
          cmds := ["ffmpeg http://localhost/ch/42_x"] } =
      some ("#EXTINF:-1 tvg-logo=\"\" group-title=\"News\",Ch1\n" ++
        ("http://h:80" ++ "/play/live.php?mac=" ++ "AA:BB" ++ "&stream=42&extension=ts") ++
        "\n") := by
  exact C5_localhost_rewrite "http://h:80" "AA:BB" "ffmpeg http://localhost/ch/42_x"
    ['4', '2'] rfl rfl


/-! ### C6 — idempotence of the local-proxy rewrite -/

theorem noAdj_append_head_eq {x y : Char} {l₁ l₂ : List Char}
    (h₁ : noAdj x y l₁) (h₂ : noAdj x y l₂) (b : Char)
    (hb : l₂.head? = some b) (hby : b ≠ y) :
    noAdj x y (l₁ ++ l₂) := by
  refine noAdj_append h₁ h₂ ?_
  intro a _ b2 hb2 hab
  rw [hb, Option.mem_def, Option.some.injEq] at hb2
  exact hby (hb2 ▸ hab.2)

theorem ne_of_isDigit {c y : Char} (hc : c.isDigit = true) (hy : y.isDigit = false) :
    c ≠ y := by
  intro he
  subst he
  rw [hc] at hy
  exact Bool.noConfusion hy

/-- A successful `chMatchAt` yields a non-empty run of digits. -/
theorem chMatchAt_some {rest ds : List Char} (h : chMatchAt rest = some ds) :
    ds ≠ [] ∧ ∀ c ∈ ds, c.isDigit = true := by
  rw [chMatchAt] at h
  split at h
  · rename_i hcond
    rw [Option.some.injEq] at h
    subst h
    exact ⟨hcond.1, fun c hc => List.mem_takeWhile_imp hc⟩
  · exact absurd h (by simp)

/-- A successful scan means the text contains the adjacent pair `h/` (inside
its `/ch/` segment) and the captured group is a non-empty digit run. -/
theorem chSearchAux_some :
    ∀ fuel l ds, chSearchAux fuel l = some ds →
      List.IsInfix ['h', '/'] l ∧ ds ≠ [] ∧ ∀ c ∈ ds, c.isDigit = true := by
  intro fuel
  induction fuel with
  | zero => intro l ds h; exact absurd h (by simp [chSearchAux])
  | succ m ih =>
    intro l ds h
    cases l with
    | nil => exact absurd h (by simp [chSearchAux])
    | cons c rest =>
      rw [chSearchAux] at h
      split at h
      · rename_i hcond
        rcases hcond with ⟨hc, hpre⟩
        subst hc
        rcases List.isPrefixOf_iff_prefix.mp hpre with ⟨t, ht⟩
        rcases hmm : chMatchAt (rest.drop 3) with _ | ds0
        · rw [hmm] at h
          have hrec := ih rest ds h
          exact ⟨List.infix_cons hrec.1, hrec.2⟩
        · rw [hmm] at h
          rw [Option.some.injEq] at h
          subst h
          refine ⟨?_, chMatchAt_some hmm⟩
          refine ⟨['/', 'c'], t, ?_⟩
          rw [← ht]
          rfl
      · have hrec := ih rest ds h
        exact ⟨List.infix_cons hrec.1, hrec.2⟩

/-- C6: the `localhost` rewrite step is idempotent.  The hypotheses are the
facts the program guarantees about its parameters: the base URL
`http://{host}:{port}` contains no `h` immediately followed by `/` and does
not end in `h` (it ends in the port's digits), and the MAC address is
upper-cased so it contains no lowercase `h`.  Under these, a rewritten URL
`{base}/play/live.php?mac={mac}&stream={id}&extension=ts` contains no `h/`
pair, so `re.search(r'/ch/(\d+)_')` cannot match it and a second pass
returns it unchanged; a URL the first pass left alone is left alone again. -/
theorem C6_rewrite_idempotent (base mac u : String)
    (hbase : noAdjB 'h' '/' base.data = true)
    (hlast : ∀ a ∈ base.data.getLast?, a ≠ 'h')
    (hmac : ∀ c ∈ mac.data, c ≠ 'h') :
    rewriteCmdUrl base mac (rewriteCmdUrl base mac u) = rewriteCmdUrl base mac u := by
  by_cases hc : containsSub "localhost".data u.data = true
  · rcases hs : chSearch u.data with _ | chId
    · have hu : rewriteCmdUrl base mac u = u := by
        rw [rewriteCmdUrl, if_pos hc, hs]
      rw [hu, rewriteCmdUrl, if_pos hc, hs]
    · have hfacts := chSearchAux_some u.data.length u.data chId hs
      rcases hfacts with ⟨_, hne, hdig⟩
      have hu : rewriteCmdUrl base mac u = liveStreamUrl base mac ⟨chId⟩ := by
        rw [rewriteCmdUrl, if_pos hc, hs]
      have hmk : noAdj 'h' '/' (liveStreamUrl base mac ⟨chId⟩).data := by
        rw [liveStreamUrl, data_append, data_append, data_append, data_append,
          data_append, List.append_assoc, List.append_assoc, List.append_assoc,
          List.append_assoc]
        refine noAdj_append_lastSafe (noAdj_of_B hbase) ?_ hlast
        refine noAdj_append_lastSafe (noAdj_of_B rfl) ?_ (by decide)
        refine noAdj_append_head_eq (noAdj_of_all_fst hmac) ?_ '&' rfl (by decide)
        rcases hcid : chId with _ | ⟨d, ds'⟩
        · exact absurd hcid hne
        · refine noAdj_append_head_eq (noAdj_of_B rfl) ?_ d rfl ?_
          · refine noAdj_append_head_eq ?_ (noAdj_of_B rfl) '&' rfl (by decide)
            refine noAdj_of_all_fst ?_
            intro c hcm
            refine ne_of_isDigit (hdig c ?_) (by rfl)
            rw [hcid]
            exact hcm
          · exact ne_of_isDigit (hdig d (by rw [hcid]; exact List.mem_cons_self d ds')) (by rfl)
      have hnone : chSearch (liveStreamUrl base mac ⟨chId⟩).data = none := by
        rcases hs2 : chSearch (liveStreamUrl base mac ⟨chId⟩).data with _ | ds2
        · rfl
        · exfalso
          have h2 := chSearchAux_some _ _ _ hs2
          exact not_pair_infix_of_noAdj hmk h2.1
      rw [hu, rewriteCmdUrl, hnone]
      split <;> rfl
  · have hu : rewriteCmdUrl base mac u = u := by
      rw [rewriteCmdUrl, if_neg hc]
    rw [hu, hu]

/-- Witness for C6 at a concrete base, MAC and channel command URL. -/
theorem C6_rewrite_idempotent_witness :
    rewriteCmdUrl "http://example.com:80" "00:1A:79:AB"
        (rewriteCmdUrl "http://example.com:80" "00:1A:79:AB"
          "http://localhost/ch/42_x") =
      rewriteCmdUrl "http://example.com:80" "00:1A:79:AB"
        "http://localhost/ch/42_x" := by
  exact C6_rewrite_idempotent "http://example.com:80" "00:1A:79:AB"
    "http://localhost/ch/42_x" rfl (by decide) (by decide)


/-! ### C7 — written entries versus resolver results -/

/-- The movie writer's output characterized: writes are exactly the items up
to the first resolver exception whose resolution was a truthy link, in order;
and a returned count equals the number of records written. -/
theorem save_vod_list_spec (resolve : VodItem → HttpResult) (title : String) :
    ∀ items : List VodItem,
      (save_vod_list resolve title items).1 =
        (items.takeWhile (fun v => !(raisesExc (fetch_play_link (resolve v))))).filterMap
          (fun v => (resolvedLink (fetch_play_link (resolve v))).map
            (fun link => mkExtinfEntry v.screenshot title v.name link)) ∧
      (∀ n, (save_vod_list resolve title items).2 = Except.ok n →
        n = (save_vod_list resolve title items).1.length) := by
  intro items
  induction items with
  | nil =>
    refine ⟨rfl, ?_⟩
    intro n hn
    rw [save_vod_list] at hn
    rw [Except.ok.injEq] at hn
    subst hn
    rfl
  | cons v rest ih =>
    cases hf : fetch_play_link (resolve v) with
    | error e =>
      constructor
      · simp [save_vod_list, hf, raisesExc]
      · intro n hn
        simp [save_vod_list, hf] at hn
    | ok ol =>
      cases ol with
      | none =>
        constructor
        · simp [save_vod_list, hf, raisesExc, resolvedLink, ih.1]
        · intro n hn
          simp only [save_vod_list, hf] at hn ⊢
          exact ih.2 n hn
      | some link =>
        by_cases hl : link = ""
        · subst hl
          constructor
          · simp [save_vod_list, hf, raisesExc, resolvedLink, ih.1]
          · intro n hn
            simp only [save_vod_list, hf, if_pos rfl] at hn ⊢
            exact ih.2 n hn
        · constructor
          · simp [save_vod_list, hf, raisesExc, resolvedLink, hl, ih.1]
          · intro n hn
            simp only [save_vod_list, hf, if_neg hl] at hn ⊢
            cases hr : (save_vod_list resolve title rest).2 with
            | error e => rw [hr] at hn; simp [Except.map] at hn
            | ok m =>
              rw [hr] at hn
              simp only [Except.map, Except.ok.injEq] at hn
              subst hn
              simp [ih.2 m hr]

/-- The episode loop characterized the same way. -/
theorem save_episode_loop_spec (resolveEp : String → Nat → Nat → HttpResult)
    (sid snumStr stitle logo title : String) (snum total : Nat) :
    ∀ eps : List Nat,
      (save_episode_loop resolveEp sid snumStr snum stitle logo title total eps).1 =
        (eps.takeWhile (fun ep => !(raisesExc (fetch_play_link (resolveEp sid snum ep))))).filterMap
          (fun ep => (resolvedLink (fetch_play_link (resolveEp sid snum ep))).map
            (fun link => mkEpisodeEntry sid snumStr ep stitle logo title
              (stitle ++ " " ++ format_episode_number snum ep total) link)) ∧
      (∀ n,
        (save_episode_loop resolveEp sid snumStr snum stitle logo title total eps).2 =
          Except.ok n →
        n = (save_episode_loop resolveEp sid snumStr snum stitle logo title total eps).1.length) := by
  intro eps
  induction eps with
  | nil =>
    refine ⟨rfl, ?_⟩
    intro n hn
    rw [save_episode_loop] at hn
    rw [Except.ok.injEq] at hn
    subst hn
    rfl
  | cons ep rest ih =>
    cases hf : fetch_play_link (resolveEp sid snum ep) with
    | error e =>
      constructor
      · simp [save_episode_loop, hf, raisesExc]
      · intro n hn
        simp [save_episode_loop, hf] at hn
    | ok ol =>
      cases ol with
      | none =>
        constructor
        · simp [save_episode_loop, hf, raisesExc, resolvedLink, ih.1]
        · intro n hn
          simp only [save_episode_loop, hf] at hn ⊢
          exact ih.2 n hn
      | some link =>
        by_cases hl : link = ""
        · subst hl
          constructor
          · simp [save_episode_loop, hf, raisesExc, resolvedLink, ih.1]
          · intro n hn
            simp only [save_episode_loop, hf, if_pos rfl] at hn ⊢
            exact ih.2 n hn
        · constructor
          · simp [save_episode_loop, hf, raisesExc, resolvedLink, hl, ih.1]
          · intro n hn
            simp only [save_episode_loop, hf, if_neg hl] at hn ⊢
            cases hr : (save_episode_loop resolveEp sid snumStr snum stitle logo
                title total rest).2 with
            | error e => rw [hr] at hn; simp [Except.map] at hn
            | ok m =>
              rw [hr] at hn
              simp only [Except.map, Except.ok.injEq] at hn
              subst hn
              simp [ih.2 m hr]

/-- Sequencing preserves "returned count = number of records written". -/
theorem seqWrites_count {a : List String × Except PyExc Nat}
    {b : Unit → List String × Except PyExc Nat}
    (ha : ∀ n, a.2 = Except.ok n → n = a.1.length)
    (hb : ∀ n, (b ()).2 = Except.ok n → n = (b ()).1.length) :
    ∀ n, (seqWrites a b).2 = Except.ok n → n = (seqWrites a b).1.length := by
  intro n hn
  cases h2 : a.2 with
  | error e =>
    rw [seqWrites, h2] at hn
    exact absurd hn (by simp)
  | ok m =>
    rw [seqWrites, h2] at hn ⊢
    cases hb2 : (b ()).2 with
    | error e => rw [hb2] at hn; simp [Except.map] at hn
    | ok k =>
      rw [hb2] at hn
      simp only [Except.map, Except.ok.injEq] at hn
      subst hn
      simp [List.length_append]
      rw [← ha m h2, ← hb k hb2]

/-- The season loop's returned count equals its number of written records. -/
theorem save_season_loop_count (resolveEp : String → Nat → Nat → HttpResult)
    (sid stitle logo title : String) :
    ∀ seasons : List SeasonData,
      ∀ n, (save_season_loop resolveEp sid stitle logo title seasons).2 = Except.ok n →
        n = (save_season_loop resolveEp sid stitle logo title seasons).1.length := by
  intro seasons
  induction seasons with
  | nil =>
    intro n hn
    rw [save_season_loop] at hn
    rw [Except.ok.injEq] at hn
    subst hn
    rfl
  | cons season rest ih =>
    intro n hn
    cases hp : pyIndex1 (pySplitChar ':' season.id.data) with
    | error e => simp [save_season_loop, hp] at hn
    | ok snc =>
      cases hq : pyIntParse snc with
      | error e => simp [save_season_loop, hp, hq] at hn
      | ok snum =>
        simp only [save_season_loop, hp, hq] at hn ⊢
        exact seqWrites_count
          (fun k hk => (save_episode_loop_spec resolveEp sid ⟨snc⟩ stitle logo title
            snum season.episodes.length season.episodes).2 k hk)
          (fun k hk => ih k hk) n hn

/-- The series writer's returned count equals its number of written records. -/
theorem save_series_data_count
    (seasonsOf : String → Except PyExc (Option (List SeasonData)))
    (resolveEp : String → Nat → Nat → HttpResult) (title : String) :
    ∀ seriesList : List SeriesItem,
      ∀ n, (save_series_data seasonsOf resolveEp title seriesList).2 = Except.ok n →
        n = (save_series_data seasonsOf resolveEp title seriesList).1.length := by
  intro seriesList
  induction seriesList with
  | nil =>
    intro n hn
    rw [save_series_data] at hn
    rw [Except.ok.injEq] at hn
    subst hn
    rfl
  | cons series rest ih =>
    intro n hn
    cases hp : pyIndex0 (pySplitChar ':' series.id.data) with
    | error e => simp [save_series_data, hp] at hn
    | ok sidChars =>
      cases hso : seasonsOf ⟨sidChars⟩ with
      | error e => simp [save_series_data, hp, hso] at hn
      | ok seasonsOpt =>
        cases seasonsOpt with
        | none =>
          simp only [save_series_data, hp, hso] at hn ⊢
          exact ih n hn
        | some seasons =>
          cases seasons with
          | nil =>
            simp only [save_series_data, hp, hso] at hn ⊢
            exact ih n hn
          | cons s0 ss =>
            simp only [save_series_data, hp, hso] at hn ⊢
            exact seqWrites_count
              (fun k hk => save_season_loop_count resolveEp ⟨sidChars⟩ series.name
                series.screenshot title (s0 :: ss) k hk)
              (fun k hk => ih k hk) n hn

/-- C7: in the movie writer and the episode writer alike, what reaches the
playlist is exactly the (orderly) records of items whose resolution returned
a non-empty URL — an item resolved to "no link" (or an empty string) is never
written — and every count these writers (and the whole series writer above
them) report equals the number of records they wrote in its category's name. -/
theorem C7_written_iff_resolved (resolve : VodItem → HttpResult) (title : String)
    (items : List VodItem)
    (resolveEp : String → Nat → Nat → HttpResult)
    (sid snumStr stitle logo : String) (snum total : Nat) (eps : List Nat)
    (seasonsOf : String → Except PyExc (Option (List SeasonData)))
    (seriesList : List SeriesItem) :
    ((save_vod_list resolve title items).1 =
        (items.takeWhile (fun v => !(raisesExc (fetch_play_link (resolve v))))).filterMap
          (fun v => (resolvedLink (fetch_play_link (resolve v))).map
            (fun link => mkExtinfEntry v.screenshot title v.name link)) ∧
      (∀ n, (save_vod_list resolve title items).2 = Except.ok n →
        n = (save_vod_list resolve title items).1.length)) ∧
    ((save_episode_loop resolveEp sid snumStr snum stitle logo title total eps).1 =
        (eps.takeWhile (fun ep => !(raisesExc (fetch_play_link (resolveEp sid snum ep))))).filterMap
          (fun ep => (resolvedLink (fetch_play_link (resolveEp sid snum ep))).map
            (fun link => mkEpisodeEntry sid snumStr ep stitle logo title
              (stitle ++ " " ++ format_episode_number snum ep total) link)) ∧
      (∀ n,
        (save_episode_loop resolveEp sid snumStr snum stitle logo title total eps).2 =
          Except.ok n →
        n = (save_episode_loop resolveEp sid snumStr snum stitle logo title total eps).1.length)) ∧
    (∀ n, (save_series_data seasonsOf resolveEp title seriesList).2 = Except.ok n →
      n = (save_series_data seasonsOf resolveEp title seriesList).1.length) :=
  ⟨save_vod_list_spec resolve title items,
   save_episode_loop_spec resolveEp sid snumStr stitle logo title snum total eps,
   save_series_data_count seasonsOf resolveEp title seriesList⟩

/-- Witness for C7: a two-item batch whose first item resolves to `L1` and
whose second gets a 404 writes exactly the first item's record and reports
count 1. -/
theorem C7_written_iff_resolved_witness :
    (save_vod_list
        (fun v => if v.name = "A" then HttpResult.resp 200 (JsonBody.jsCmd "x L1")
                  else HttpResult.resp 404 JsonBody.notJson)
        "Movies"
        [{ name := "A", screenshot := "", cmd := "c1" },
         { name := "B", screenshot := "", cmd := "c2" }]).1 =
      [mkExtinfEntry "" "Movies" "A" "L1"] ∧
    (1 : Nat) =
      (save_vod_list
        (fun v => if v.name = "A" then HttpResult.resp 200 (JsonBody.jsCmd "x L1")
                  else HttpResult.resp 404 JsonBody.notJson)
        "Movies"
        [{ name := "A", screenshot := "", cmd := "c1" },
         { name := "B", screenshot := "", cmd := "c2" }]).1.length := by
  constructor
  · rw [(C7_written_iff_resolved
      (fun v => if v.name = "A" then HttpResult.resp 200 (JsonBody.jsCmd "x L1")
                else HttpResult.resp 404 JsonBody.notJson)
      "Movies"
      [{ name := "A", screenshot := "", cmd := "c1" },
       { name := "B", screenshot := "", cmd := "c2" }]
      (fun _ _ _ => HttpResult.transportErr) "s" "1" "t" "l" 1 1 []
      (fun _ => Except.ok none) []).1.1]
    rfl
  · exact (C7_written_iff_resolved
      (fun v => if v.name = "A" then HttpResult.resp 200 (JsonBody.jsCmd "x L1")
                else HttpResult.resp 404 JsonBody.notJson)
      "Movies"
      [{ name := "A", screenshot := "", cmd := "c1" },
       { name := "B", screenshot := "", cmd := "c2" }]
      (fun _ _ _ => HttpResult.transportErr) "s" "1" "t" "l" 1 1 []
      (fun _ => Except.ok none) []).1.2 1 rfl


/-! ### C10 — the derived base URL -/

end MacToM3u
